import Mathlib

/-!
Verification of the footprint-polygon core of the pySL4Land repository.

Shallow embedding of the core computation of pysl4land_utils.py
(UTM zone selection) and pysl4land_icesat2.py (get_segment_polygons,
the footprint synthesizer), together with theorems settling the
specification claims about them.

Latitude, longitude and zone arithmetic is embedded over ℚ and ℤ
(the zone computation uses only rational arithmetic, rounding and
comparisons); the planar footprint geometry is embedded generically over a
linear ordered field, instantiated at ℝ with Real.cos, Real.sin and
Real.arctan in the theorems. The trigonometric primitives and the
projection transforms of the external libraries enter as function
parameters.
-/

namespace PySL4Land

/-- Embedding of numpy.rint on ℚ: round to the nearest integer, ties to
the nearest even integer (IEEE round-half-even). -/
def rint (q : ℚ) : ℤ :=
  let f := ⌊q⌋
  let r := q - (f : ℚ)
  if r < 1/2 then f
  else if 1/2 < r then f + 1
  else if f % 2 = 0 then f else f + 1

/-- Embedding of pysl4land_utils.latlon_to_utm_zone_number for one sample.
The numpy code computes rint((lon + 180)/6 + 1) elementwise and then
applies five boolean-mask assignments in sequence; sequential masked
assignment on one element is a chain of conditional overwrites, embedded
here as nested conditionals in source order. -/
def latlon_to_utm_zone_number (latitude longitude : ℚ) : ℤ :=
  let z0 := rint ((longitude + 180) / 6 + 1)
  let z1 := if 56 ≤ latitude ∧ latitude < 64 ∧ 3 ≤ longitude ∧ longitude < 12
            then 32 else z0
  let z2 := if 72 ≤ latitude ∧ latitude ≤ 84 ∧ 0 ≤ longitude ∧ longitude < 9
            then 31 else z1
  let z3 := if 72 ≤ latitude ∧ latitude ≤ 84 ∧ 0 ≤ longitude ∧ longitude < 21
            then 33 else z2
  let z4 := if 72 ≤ latitude ∧ latitude ≤ 84 ∧ 0 ≤ longitude ∧ longitude < 33
            then 35 else z3
  let z5 := if 72 ≤ latitude ∧ latitude ≤ 84 ∧ 0 ≤ longitude ∧ longitude < 42
            then 37 else z4
  z5

/-- Elementwise application of latlon_to_utm_zone_number to the two input
arrays (the numpy version is vectorized over arrays of equal length). -/
def utm_zones (latitudes longitudes : List ℚ) : List ℤ :=
  List.zipWith latlon_to_utm_zone_number latitudes longitudes

/-- Model of the external scipy.stats.mode collaborator on a 1-D integer
array, per its documented behaviour: the most frequently occurring value;
if there is more than one such value, the smallest is returned. -/
def scipy_mode (l : List ℤ) : ℤ :=
  ((l.filter (fun v => l.all (fun w => l.count w ≤ l.count v))).min?).getD 0

/-- Embedding of pysl4land_utils.latlon_to_mode_utm_zone_number:
the mode of the per-sample UTM zones. -/
def latlon_to_mode_utm_zone_number (latitudes longitudes : List ℚ) : ℤ :=
  scipy_mode (utm_zones latitudes longitudes)

/-- The EPSG code chosen in get_segment_polygons, line 103 of
pysl4land_icesat2.py: epsg_code = 32600 + utm_zone. -/
def epsg_code (latitudes longitudes : List ℚ) : ℤ :=
  32600 + latlon_to_mode_utm_zone_number latitudes longitudes

/-- The step-forward array of lines 119 to 125 of pysl4land_icesat2.py:
x_fwd[1:] = x[0:n-1] and x_fwd[0] = x[0], i.e. the list shifted right by
one with the first element repeated. -/
def stepFwd {α : Type} : List α → List α
  | [] => []
  | a :: t => a :: (a :: t).dropLast

/-- The step-backwards array of lines 128 to 134 of pysl4land_icesat2.py:
x_bck[0:n-1] = x[1:n] and x_bck[-1] = x[-1], i.e. the list shifted left by
one with the last element repeated. -/
def stepBck {α : Type} : List α → List α
  | [] => []
  | a :: t => t ++ [t.getLastD a]

/-- The whole-track reference heading of line 137:
atan((x[-1] - x[0]) / (y[-1] - y[0])), with the external arctangent passed
as atanf. -/
def sgl_flight_angle {K : Type} [Field K] (atanf : K → K) (x y : List K) : K :=
  atanf ((x.getLastD 0 - x.headD 0) / (y.getLastD 0 - y.headD 0))

/-- The raw per-point local headings of line 138:
arctan((x_fwd - x_bck) / (y_fwd - y_bck)), elementwise. -/
def flight_angle_raw {K : Type} [Field K] (atanf : K → K) (x y : List K) : List K :=
  List.zipWith (fun dx dy => atanf (dx / dy))
    (List.zipWith (fun a b => a - b) (stepFwd x) (stepBck x))
    (List.zipWith (fun a b => a - b) (stepFwd y) (stepBck y))

/-- The clamped headings of lines 140 and 141: wherever the local heading
differs from sgl_flight_angle by more than 0.1 it is replaced by
sgl_flight_angle, elementwise. -/
def flight_angles {K : Type} [LinearOrderedField K] (atanf : K → K) (x y : List K) :
    List K :=
  (flight_angle_raw atanf x y).map
    (fun a => if |a - sgl_flight_angle atanf x y| > 1 / 10
              then sgl_flight_angle atanf x y else a)

/-- One footprint rectangle, lines 148 to 190: the four axis-aligned
corners around the center (cx, cy), each rotated with the precomputed
theta_cos and theta_sin of lines 143 and 144, emitted in the order
upper-left, upper-right, lower-right, lower-left (lines 189 and 190). -/
def footprint {K : Type} [Field K]
    (cx cy theta_cos theta_sin along_size across_size : K) : List (K × K) :=
  let along_size_h := along_size / 2
  let across_size_h := across_size / 2
  let ul_x := cx - across_size_h
  let ul_y := cy + along_size_h
  let ul_x_rot := cx + theta_cos * (ul_x - cx) + theta_sin * (ul_y - cy)
  let ul_y_rot := cy + -theta_sin * (ul_x - cx) + theta_cos * (ul_y - cy)
  let ur_x := cx + across_size_h
  let ur_y := cy + along_size_h
  let ur_x_rot := cx + theta_cos * (ur_x - cx) + theta_sin * (ur_y - cy)
  let ur_y_rot := cy + -theta_sin * (ur_x - cx) + theta_cos * (ur_y - cy)
  let lr_x := cx + across_size_h
  let lr_y := cy - along_size_h
  let lr_x_rot := cx + theta_cos * (lr_x - cx) + theta_sin * (lr_y - cy)
  let lr_y_rot := cy + -theta_sin * (lr_x - cx) + theta_cos * (lr_y - cy)
  let ll_x := cx - across_size_h
  let ll_y := cy - along_size_h
  let ll_x_rot := cx + theta_cos * (ll_x - cx) + theta_sin * (ll_y - cy)
  let ll_y_rot := cy + -theta_sin * (ll_x - cx) + theta_cos * (ll_y - cy)
  [(ul_x_rot, ul_y_rot), (ur_x_rot, ur_y_rot), (lr_x_rot, lr_y_rot), (ll_x_rot, ll_y_rot)]

/-- The footprint synthesizer over planar coordinates x, y (the body of
get_segment_polygons after the forward projection): per-point clamped
headings, one rotated rectangle per point, each corner mapped back through
the external inverse projection inv. -/
def get_segment_polygons {K : Type} [LinearOrderedField K]
    (cosf sinf atanf : K → K) (x y : List K) (along_size across_size : K)
    (inv : K × K → K × K) : List (List (K × K)) :=
  List.zipWith
    (fun c theta =>
      (footprint c.1 c.2 (cosf theta) (sinf theta) along_size across_size).map inv)
    (x.zip y) (flight_angles atanf x y)

/-- The model scipy_mode returns a most frequent element of a nonempty
list, and on ties the smallest of the tied values. -/
theorem scipy_mode_spec (l : List ℤ) (h : l ≠ []) :
    scipy_mode l ∈ l ∧ (∀ v ∈ l, l.count v ≤ l.count (scipy_mode l)) ∧
      (∀ v ∈ l, l.count v = l.count (scipy_mode l) → scipy_mode l ≤ v) := by
  obtain ⟨m, hm⟩ : ∃ m, m ∈ l.argmax (fun v => l.count v) := by
    cases harg : l.argmax (fun v => l.count v) with
    | none => exact absurd (List.argmax_eq_none.mp harg) h
    | some m => exact ⟨m, by simp [harg, Option.mem_def]⟩
  have hmem : m ∈ l := List.argmax_mem hm
  have hmax : ∀ w ∈ l, l.count w ≤ l.count m := fun w hw => List.le_of_mem_argmax hw hm
  set F := l.filter (fun v => l.all (fun w => l.count w ≤ l.count v)) with hF
  have hmF : m ∈ F := by
    rw [hF, List.mem_filter]
    refine ⟨hmem, ?_⟩
    simp only [List.all_eq_true, decide_eq_true_eq]
    exact hmax
  cases hmin : F.min? with
  | none =>
    rw [List.min?_eq_none_iff] at hmin
    exact absurd (hmin ▸ hmF) (List.not_mem_nil m)
  | some m0 =>
    haveI : Std.Antisymm ((· : ℤ) ≤ ·) := ⟨fun h h' => le_antisymm h h'⟩
    have hm0 := (List.min?_eq_some_iff (fun a => le_refl a)
      (fun a b => min_choice a b) (fun a b c => le_min_iff)).mp hmin
    obtain ⟨hm0F, hm0min⟩ := hm0
    have hmode : scipy_mode l = m0 := by
      rw [scipy_mode, ← hF, hmin, Option.getD_some]
    rw [hF, List.mem_filter] at hm0F
    obtain ⟨hm0l, hm0P⟩ := hm0F
    simp only [List.all_eq_true, decide_eq_true_eq] at hm0P
    rw [hmode]
    refine ⟨hm0l, fun v hv => hm0P v hv, ?_⟩
    intro v hv hcount
    have hvF : v ∈ F := by
      rw [hF, List.mem_filter]
      refine ⟨hv, ?_⟩
      simp only [List.all_eq_true, decide_eq_true_eq]
      intro w hw
      rw [hcount]
      exact hm0P w hw
    exact hm0min v hvF

theorem stepFwd_length {α : Type} (x : List α) : (stepFwd x).length = x.length := by
  cases x <;> simp [stepFwd]

theorem stepBck_length {α : Type} (x : List α) : (stepBck x).length = x.length := by
  cases x <;> simp [stepBck]

theorem stepFwd_getElem? {α : Type} (x : List α) (i : ℕ) (h : i < x.length) :
    (stepFwd x)[i]? = x[i - 1]? := by
  cases x with
  | nil => simp at h
  | cons a t =>
    cases i with
    | zero => simp [stepFwd]
    | succ j =>
      have hj : j < ((a :: t).dropLast).length := by
        simp only [List.length_dropLast, List.length_cons] at *
        omega
      have hj' : j < t.length := by simpa using hj
      rw [stepFwd, List.getElem?_cons_succ, Nat.succ_sub_one,
        List.getElem?_eq_getElem hj, List.getElem_dropLast,
        List.getElem?_eq_getElem (by simpa using Nat.lt_succ_of_lt hj')]

theorem stepBck_getElem? {α : Type} (x : List α) (i : ℕ) (h : i < x.length) :
    (stepBck x)[i]? = x[min (i + 1) (x.length - 1)]? := by
  cases x with
  | nil => simp at h
  | cons a t =>
    rw [stepBck]
    rcases Nat.lt_or_ge i t.length with hi | hi
    · rw [List.getElem?_append_left (by simpa using hi)]
      have hmin : min (i + 1) ((a :: t).length - 1) = i + 1 := by
        simp only [List.length_cons]
        omega
      rw [hmin, List.getElem?_cons_succ]
    · have hieq : i = t.length := by
        simp only [List.length_cons] at h
        omega
      subst hieq
      rw [List.getElem?_append_right (by simp), List.getLastD_eq_getLast?]
      have hmin : min (t.length + 1) ((a :: t).length - 1) = t.length := by
        simp only [List.length_cons]
        omega
      rw [hmin]
      cases t with
      | nil => simp
      | cons b u =>
        simp only [List.length_append, List.length_cons, Nat.sub_self]
        rw [List.getLast?_eq_getElem?]
        simp

theorem headD_eq_getD {α : Type} (x : List α) (d : α) : x.headD d = x.getD 0 d := by
  cases x <;> simp

theorem getLastD_eq_getD {α : Type} (x : List α) (d : α) :
    x.getLastD d = x.getD (x.length - 1) d := by
  rw [List.getLastD_eq_getLast?, List.getLast?_eq_getElem?, List.getD_eq_getElem?_getD]

theorem flight_angle_raw_getElem? {K : Type} [Field K] (atanf : K → K)
    (x y : List K) (i : ℕ) (hx : i < x.length) (hy : i < y.length) :
    (flight_angle_raw atanf x y)[i]? =
      some (atanf ((x.getD (i - 1) 0 - x.getD (min (i + 1) (x.length - 1)) 0) /
        (y.getD (i - 1) 0 - y.getD (min (i + 1) (y.length - 1)) 0))) := by
  have hgd : ∀ (z : List K) (j : ℕ), j < z.length → z[j]? = some (z.getD j 0) := by
    intro z j hj
    rw [List.getD_eq_getElem?_getD, List.getElem?_eq_getElem hj]
    rfl
  have hfx : (stepFwd x)[i]? = some (x.getD (i - 1) 0) := by
    rw [stepFwd_getElem? x i hx, hgd x (i - 1) (by omega)]
  have hbx : (stepBck x)[i]? = some (x.getD (min (i + 1) (x.length - 1)) 0) := by
    rw [stepBck_getElem? x i hx, hgd x (min (i + 1) (x.length - 1)) (by omega)]
  have hfy : (stepFwd y)[i]? = some (y.getD (i - 1) 0) := by
    rw [stepFwd_getElem? y i hy, hgd y (i - 1) (by omega)]
  have hby : (stepBck y)[i]? = some (y.getD (min (i + 1) (y.length - 1)) 0) := by
    rw [stepBck_getElem? y i hy, hgd y (min (i + 1) (y.length - 1)) (by omega)]
  rw [flight_angle_raw, List.getElem?_zipWith, List.getElem?_zipWith, hfx, hbx,
    List.getElem?_zipWith, hfy, hby]

theorem flight_angle_raw_length {K : Type} [Field K] (atanf : K → K) (x y : List K) :
    (flight_angle_raw atanf x y).length = min x.length y.length := by
  simp [flight_angle_raw, List.length_zipWith, stepFwd_length, stepBck_length]

theorem flight_angles_length {K : Type} [LinearOrderedField K] (atanf : K → K)
    (x y : List K) : (flight_angles atanf x y).length = min x.length y.length := by
  simp [flight_angles, flight_angle_raw_length]

/-- C2: the per-sample zone computed by latlon_to_utm_zone_number is claimed
to equal floor((longitude + 180)/6) + 1; but the code rounds with
numpy.rint instead of flooring, so at longitude 4 (latitude 0) it returns
zone 32 while the floor formula (the standard UTM zone of longitude 4
degrees east) gives 31. -/
theorem latlon_zone_rint_vs_floor :
    latlon_to_utm_zone_number 0 4 = 32 ∧ (⌊(((4 : ℚ) + 180) / 6)⌋ + 1 : ℤ) = 31 := by
  constructor
  · norm_num [latlon_to_utm_zone_number, rint]
  · norm_num

/-- C3: in the 72 to 84 degrees north band the four Svalbard mask
assignments all start at longitude 0 and are applied in sequence, so the
later masks overwrite the earlier ones: every longitude in [0, 42) is
forced to zone 37 (not to 31, 33, 35 or 37 by sub-band), while the
exception forcing zone 32 at latitude 56 to 64 north, longitude 3 to 12
east, does hold. -/
theorem latlon_zone_svalbard_overwrite :
    latlon_to_utm_zone_number 75 5 = 37 ∧ latlon_to_utm_zone_number 75 15 = 37 ∧
      latlon_to_utm_zone_number 75 25 = 37 ∧ latlon_to_utm_zone_number 75 40 = 37 ∧
      latlon_to_utm_zone_number 60 5 = 32 := by
  refine ⟨?_, ?_, ?_, ?_, ?_⟩ <;> norm_num [latlon_to_utm_zone_number, rint]

/-- C6: latlon_to_mode_utm_zone_number returns the statistical mode of the
per-sample zones (a single zone for the whole track): a zone attaining the
maximal count, the lowest such zone on ties, and in particular with only
two zones present having counts 7 and 3 it returns the count-7 zone. -/
theorem mode_utm_zone_is_mode (lats lons : List ℚ) (hlen : lats.length = lons.length)
    (hne : lats ≠ []) :
    latlon_to_mode_utm_zone_number lats lons ∈ utm_zones lats lons ∧
      (∀ v ∈ utm_zones lats lons, (utm_zones lats lons).count v ≤
        (utm_zones lats lons).count (latlon_to_mode_utm_zone_number lats lons)) ∧
      (∀ v ∈ utm_zones lats lons, (utm_zones lats lons).count v =
        (utm_zones lats lons).count (latlon_to_mode_utm_zone_number lats lons) →
        latlon_to_mode_utm_zone_number lats lons ≤ v) ∧
      (∀ a b : ℤ, (utm_zones lats lons).count a = 7 → (utm_zones lats lons).count b = 3 →
        (∀ v ∈ utm_zones lats lons, v = a ∨ v = b) →
        latlon_to_mode_utm_zone_number lats lons = a) := by
  have hzne : utm_zones lats lons ≠ [] := by
    rw [utm_zones]
    intro hcon
    rcases lats with _ | ⟨la, lats⟩
    · exact hne rfl
    · rcases lons with _ | ⟨lo, lons⟩
      · exact absurd hlen (by simp)
      · simp [List.zipWith] at hcon
  obtain ⟨hmem, hmax, htie⟩ := scipy_mode_spec (utm_zones lats lons) hzne
  refine ⟨hmem, hmax, htie, ?_⟩
  intro a b hca hcb hab
  rcases hab _ hmem with hma | hmb
  · exact hma
  · exfalso
    have ha : a ∈ utm_zones lats lons := by
      rw [← List.count_pos_iff]
      omega
    have hle := hmax a ha
    rw [hmb] at hle
    omega

/-- Witness for C6 at latitudes [56, 56, 56], longitudes [5, 5, 5]. -/
theorem mode_utm_zone_is_mode_witness :
    ([56, 56, 56] : List ℚ).length = ([5, 5, 5] : List ℚ).length ∧
      ([56, 56, 56] : List ℚ) ≠ [] ∧
      (latlon_to_mode_utm_zone_number [56, 56, 56] [5, 5, 5]
          ∈ utm_zones [56, 56, 56] [5, 5, 5] ∧
        (∀ v ∈ utm_zones [56, 56, 56] [5, 5, 5],
          (utm_zones [56, 56, 56] [5, 5, 5]).count v ≤
            (utm_zones [56, 56, 56] [5, 5, 5]).count
              (latlon_to_mode_utm_zone_number [56, 56, 56] [5, 5, 5])) ∧
        (∀ v ∈ utm_zones [56, 56, 56] [5, 5, 5],
          (utm_zones [56, 56, 56] [5, 5, 5]).count v =
            (utm_zones [56, 56, 56] [5, 5, 5]).count
              (latlon_to_mode_utm_zone_number [56, 56, 56] [5, 5, 5]) →
          latlon_to_mode_utm_zone_number [56, 56, 56] [5, 5, 5] ≤ v) ∧
        (∀ a b : ℤ, (utm_zones [56, 56, 56] [5, 5, 5]).count a = 7 →
          (utm_zones [56, 56, 56] [5, 5, 5]).count b = 3 →
          (∀ v ∈ utm_zones [56, 56, 56] [5, 5, 5], v = a ∨ v = b) →
          latlon_to_mode_utm_zone_number [56, 56, 56] [5, 5, 5] = a)) :=
  ⟨rfl, by decide, mode_utm_zone_is_mode [56, 56, 56] [5, 5, 5] rfl (by decide)⟩

/-- C7: the forward neighbor used by the heading computation is the point
at index max (i-1) 0 and the backward neighbor the point at index
min (i+1) (n-1); edge points use themselves in place of the missing
neighbor, and both accesses stay inside the list. -/
theorem step_neighbors_clamped {α : Type} (x : List α) (d : α) (i : ℕ)
    (h : i < x.length) :
    (stepFwd x).length = x.length ∧ (stepBck x).length = x.length ∧
      (stepFwd x).getD i d = x.getD (max ((i : ℤ) - 1) 0).toNat d ∧
      (stepBck x).getD i d = x.getD (min (i + 1) (x.length - 1)) d := by
  refine ⟨stepFwd_length x, stepBck_length x, ?_, ?_⟩
  · rw [List.getD_eq_getElem?_getD, List.getD_eq_getElem?_getD, stepFwd_getElem? x i h]
    congr 2
    omega
  · rw [List.getD_eq_getElem?_getD, List.getD_eq_getElem?_getD, stepBck_getElem? x i h]

/-- Witness for C7 at the concrete list [10, 20, 30], index 1. -/
theorem step_neighbors_clamped_witness :
    1 < ([10, 20, 30] : List ℕ).length ∧
      ((stepFwd [10, 20, 30]).length = ([10, 20, 30] : List ℕ).length ∧
        (stepBck [10, 20, 30]).length = ([10, 20, 30] : List ℕ).length ∧
        (stepFwd [10, 20, 30]).getD 1 0 =
          ([10, 20, 30] : List ℕ).getD (max ((1 : ℤ) - 1) 0).toNat 0 ∧
        (stepBck [10, 20, 30]).getD 1 0 =
          ([10, 20, 30] : List ℕ).getD
            (min (1 + 1) (([10, 20, 30] : List ℕ).length - 1)) 0) :=
  ⟨by decide, step_neighbors_clamped [10, 20, 30] 0 1 (by decide)⟩

/-- C1: the footprint built for a planar center (cx, cy) consists of the
four corners upper-left, upper-right, lower-right, lower-left of the
axis-aligned rectangle of width across_size and height along_size, each
rotated about the center by the heading θ via
x' = cx + cos θ (x−cx) + sin θ (y−cy) and
y' = cy − sin θ (x−cx) + cos θ (y−cy), emitted in exactly that order. -/
theorem footprint_corners_explicit (cx cy along_size across_size θ : ℝ) :
    footprint cx cy (Real.cos θ) (Real.sin θ) along_size across_size =
      [(cx + Real.cos θ * ((cx - across_size / 2) - cx)
          + Real.sin θ * ((cy + along_size / 2) - cy),
        cy - Real.sin θ * ((cx - across_size / 2) - cx)
          + Real.cos θ * ((cy + along_size / 2) - cy)),
       (cx + Real.cos θ * ((cx + across_size / 2) - cx)
          + Real.sin θ * ((cy + along_size / 2) - cy),
        cy - Real.sin θ * ((cx + across_size / 2) - cx)
          + Real.cos θ * ((cy + along_size / 2) - cy)),
       (cx + Real.cos θ * ((cx + across_size / 2) - cx)
          + Real.sin θ * ((cy - along_size / 2) - cy),
        cy - Real.sin θ * ((cx + across_size / 2) - cx)
          + Real.cos θ * ((cy - along_size / 2) - cy)),
       (cx + Real.cos θ * ((cx - across_size / 2) - cx)
          + Real.sin θ * ((cy - along_size / 2) - cy),
        cy - Real.sin θ * ((cx - across_size / 2) - cx)
          + Real.cos θ * ((cy - along_size / 2) - cy))] := by
  simp only [footprint, List.cons.injEq, Prod.mk.injEq, and_true]
  refine ⟨⟨by ring_nf, by ring_nf⟩, ⟨by ring_nf, by ring_nf⟩, ⟨by ring_nf, by ring_nf⟩,
    by ring_nf, by ring_nf⟩

/-- C8: in exact real arithmetic the four side lengths of every emitted
footprint are across_size, along_size, across_size, along_size, in
emission order; rotation by any heading is an isometry of the rectangle. -/
theorem footprint_side_lengths (cx cy along_size across_size θ : ℝ)
    (p0 p1 p2 p3 : ℝ × ℝ) (halong : 0 ≤ along_size) (hacross : 0 ≤ across_size)
    (hf : footprint cx cy (Real.cos θ) (Real.sin θ) along_size across_size =
      [p0, p1, p2, p3]) :
    Real.sqrt ((p0.1 - p1.1) ^ 2 + (p0.2 - p1.2) ^ 2) = across_size ∧
      Real.sqrt ((p1.1 - p2.1) ^ 2 + (p1.2 - p2.2) ^ 2) = along_size ∧
      Real.sqrt ((p2.1 - p3.1) ^ 2 + (p2.2 - p3.2) ^ 2) = across_size ∧
      Real.sqrt ((p3.1 - p0.1) ^ 2 + (p3.2 - p0.2) ^ 2) = along_size := by
  simp only [footprint, List.cons.injEq, and_true] at hf
  obtain ⟨h0, h1, h2, h3⟩ := hf
  subst h0 h1 h2 h3
  have hpyth := Real.sin_sq_add_cos_sq θ
  refine ⟨?_, ?_, ?_, ?_⟩
  · have harg : ((cx + Real.cos θ * ((cx - across_size / 2) - cx)
        + Real.sin θ * ((cy + along_size / 2) - cy))
        - (cx + Real.cos θ * ((cx + across_size / 2) - cx)
        + Real.sin θ * ((cy + along_size / 2) - cy))) ^ 2 +
        ((cy + -Real.sin θ * ((cx - across_size / 2) - cx)
        + Real.cos θ * ((cy + along_size / 2) - cy))
        - (cy + -Real.sin θ * ((cx + across_size / 2) - cx)
        + Real.cos θ * ((cy + along_size / 2) - cy))) ^ 2 = across_size ^ 2 := by
      linear_combination (across_size ^ 2) * hpyth
    rw [harg, Real.sqrt_sq hacross]
  · have harg : ((cx + Real.cos θ * ((cx + across_size / 2) - cx)
        + Real.sin θ * ((cy + along_size / 2) - cy))
        - (cx + Real.cos θ * ((cx + across_size / 2) - cx)
        + Real.sin θ * ((cy - along_size / 2) - cy))) ^ 2 +
        ((cy + -Real.sin θ * ((cx + across_size / 2) - cx)
        + Real.cos θ * ((cy + along_size / 2) - cy))
        - (cy + -Real.sin θ * ((cx + across_size / 2) - cx)
        + Real.cos θ * ((cy - along_size / 2) - cy))) ^ 2 = along_size ^ 2 := by
      linear_combination (along_size ^ 2) * hpyth
    rw [harg, Real.sqrt_sq halong]
  · have harg : ((cx + Real.cos θ * ((cx + across_size / 2) - cx)
        + Real.sin θ * ((cy - along_size / 2) - cy))
        - (cx + Real.cos θ * ((cx - across_size / 2) - cx)
        + Real.sin θ * ((cy - along_size / 2) - cy))) ^ 2 +
        ((cy + -Real.sin θ * ((cx + across_size / 2) - cx)
        + Real.cos θ * ((cy - along_size / 2) - cy))
        - (cy + -Real.sin θ * ((cx - across_size / 2) - cx)
        + Real.cos θ * ((cy - along_size / 2) - cy))) ^ 2 = across_size ^ 2 := by
      linear_combination (across_size ^ 2) * hpyth
    rw [harg, Real.sqrt_sq hacross]
  · have harg : ((cx + Real.cos θ * ((cx - across_size / 2) - cx)
        + Real.sin θ * ((cy - along_size / 2) - cy))
        - (cx + Real.cos θ * ((cx - across_size / 2) - cx)
        + Real.sin θ * ((cy + along_size / 2) - cy))) ^ 2 +
        ((cy + -Real.sin θ * ((cx - across_size / 2) - cx)
        + Real.cos θ * ((cy - along_size / 2) - cy))
        - (cy + -Real.sin θ * ((cx - across_size / 2) - cx)
        + Real.cos θ * ((cy + along_size / 2) - cy))) ^ 2 = along_size ^ 2 := by
      linear_combination (along_size ^ 2) * hpyth
    rw [harg, Real.sqrt_sq halong]

/-- Witness for C8 at center (0, 0), heading 0, sizes 100 and 13. -/
theorem footprint_side_lengths_witness :
    (0 : ℝ) ≤ 100 ∧ (0 : ℝ) ≤ 13 ∧
      footprint 0 0 (Real.cos 0) (Real.sin 0) 100 13 =
        [((-(13 / 2) : ℝ), (50 : ℝ)), (13 / 2, 50), (13 / 2, -50), (-(13 / 2), -50)] ∧
      (Real.sqrt ((((-(13 / 2) : ℝ), (50 : ℝ)).1 - ((13 / 2 : ℝ), (50 : ℝ)).1) ^ 2 +
          (((-(13 / 2) : ℝ), (50 : ℝ)).2 - ((13 / 2 : ℝ), (50 : ℝ)).2) ^ 2) = 13 ∧
        Real.sqrt ((((13 / 2 : ℝ), (50 : ℝ)).1 - ((13 / 2 : ℝ), (-50 : ℝ)).1) ^ 2 +
          (((13 / 2 : ℝ), (50 : ℝ)).2 - ((13 / 2 : ℝ), (-50 : ℝ)).2) ^ 2) = 100 ∧
        Real.sqrt ((((13 / 2 : ℝ), (-50 : ℝ)).1 - ((-(13 / 2) : ℝ), (-50 : ℝ)).1) ^ 2 +
          (((13 / 2 : ℝ), (-50 : ℝ)).2 - ((-(13 / 2) : ℝ), (-50 : ℝ)).2) ^ 2) = 13 ∧
        Real.sqrt ((((-(13 / 2) : ℝ), (-50 : ℝ)).1 - ((-(13 / 2) : ℝ), (50 : ℝ)).1) ^ 2 +
          (((-(13 / 2) : ℝ), (-50 : ℝ)).2 - ((-(13 / 2) : ℝ), (50 : ℝ)).2) ^ 2) = 100) :=
  ⟨by norm_num, by norm_num,
    by norm_num [footprint, Real.cos_zero, Real.sin_zero],
    footprint_side_lengths 0 0 100 13 0 (-(13 / 2), 50) (13 / 2, 50) (13 / 2, -50)
      (-(13 / 2), -50) (by norm_num) (by norm_num)
      (by norm_num [footprint, Real.cos_zero, Real.sin_zero])⟩

/-- C4: the final heading of every point is the local heading
atan((x_fwd − x_bck) / (y_fwd − y_bck)) over the clamped neighbors,
replaced by the whole-track reference heading
atan((x[n−1] − x[0]) / (y[n−1] − y[0])) exactly when the two differ by
more than 0.1 radians, independently per point. -/
theorem flight_angle_clamp (x y : List ℝ) (hlen : y.length = x.length)
    (hne : x ≠ []) (i : ℕ) (h : i < x.length) :
    (flight_angles Real.arctan x y).getD i 0 =
      if |Real.arctan ((x.getD (max ((i : ℤ) - 1) 0).toNat 0
            - x.getD (min (i + 1) (x.length - 1)) 0) /
          (y.getD (max ((i : ℤ) - 1) 0).toNat 0
            - y.getD (min (i + 1) (y.length - 1)) 0))
          - Real.arctan ((x.getD (x.length - 1) 0 - x.getD 0 0) /
              (y.getD (y.length - 1) 0 - y.getD 0 0))| > 1 / 10
      then Real.arctan ((x.getD (x.length - 1) 0 - x.getD 0 0) /
              (y.getD (y.length - 1) 0 - y.getD 0 0))
      else Real.arctan ((x.getD (max ((i : ℤ) - 1) 0).toNat 0
            - x.getD (min (i + 1) (x.length - 1)) 0) /
          (y.getD (max ((i : ℤ) - 1) 0).toNat 0
            - y.getD (min (i + 1) (y.length - 1)) 0)) := by
  have hsgl : sgl_flight_angle Real.arctan x y =
      Real.arctan ((x.getD (x.length - 1) 0 - x.getD 0 0) /
        (y.getD (y.length - 1) 0 - y.getD 0 0)) := by
    rw [sgl_flight_angle, getLastD_eq_getD, getLastD_eq_getD, headD_eq_getD, headD_eq_getD]
  have hmax : (max ((i : ℤ) - 1) 0).toNat = i - 1 := by omega
  rw [hmax, flight_angles, List.getD_eq_getElem?_getD, List.getElem?_map,
    flight_angle_raw_getElem? Real.arctan x y i h (by omega)]
  simp only [Option.map_some', Option.getD_some, hsgl]

/-- Witness for C4 at x = [0, 3, 4], y = [0, 1, 2], index 1. -/
theorem flight_angle_clamp_witness :
    ([0, 1, 2] : List ℝ).length = ([0, 3, 4] : List ℝ).length ∧
      ([0, 3, 4] : List ℝ) ≠ [] ∧ 1 < ([0, 3, 4] : List ℝ).length ∧
      (flight_angles Real.arctan [0, 3, 4] [0, 1, 2]).getD 1 0 =
        if |Real.arctan ((([0, 3, 4] : List ℝ).getD (max ((1 : ℤ) - 1) 0).toNat 0
              - ([0, 3, 4] : List ℝ).getD
                  (min (1 + 1) (([0, 3, 4] : List ℝ).length - 1)) 0) /
            (([0, 1, 2] : List ℝ).getD (max ((1 : ℤ) - 1) 0).toNat 0
              - ([0, 1, 2] : List ℝ).getD
                  (min (1 + 1) (([0, 1, 2] : List ℝ).length - 1)) 0))
            - Real.arctan ((([0, 3, 4] : List ℝ).getD (([0, 3, 4] : List ℝ).length - 1) 0
                  - ([0, 3, 4] : List ℝ).getD 0 0) /
                (([0, 1, 2] : List ℝ).getD (([0, 1, 2] : List ℝ).length - 1) 0
                  - ([0, 1, 2] : List ℝ).getD 0 0))| > 1 / 10
        then Real.arctan ((([0, 3, 4] : List ℝ).getD (([0, 3, 4] : List ℝ).length - 1) 0
                  - ([0, 3, 4] : List ℝ).getD 0 0) /
                (([0, 1, 2] : List ℝ).getD (([0, 1, 2] : List ℝ).length - 1) 0
                  - ([0, 1, 2] : List ℝ).getD 0 0))
        else Real.arctan ((([0, 3, 4] : List ℝ).getD (max ((1 : ℤ) - 1) 0).toNat 0
              - ([0, 3, 4] : List ℝ).getD
                  (min (1 + 1) (([0, 3, 4] : List ℝ).length - 1)) 0) /
            (([0, 1, 2] : List ℝ).getD (max ((1 : ℤ) - 1) 0).toNat 0
              - ([0, 1, 2] : List ℝ).getD
                  (min (1 + 1) (([0, 1, 2] : List ℝ).length - 1)) 0)) :=
  ⟨rfl, by simp, by simp,
    flight_angle_clamp [0, 3, 4] [0, 1, 2] rfl (by simp) 1 (by simp)⟩

/-- C9: the synthesizer returns exactly one polygon per input planar point,
and output i is the (reprojected) footprint of input point i, rotated by
the clamped heading of point i; input order is preserved. -/
theorem get_segment_polygons_order (x y : List ℝ) (along_size across_size : ℝ)
    (inv : ℝ × ℝ → ℝ × ℝ) (hlen : y.length = x.length) :
    (get_segment_polygons Real.cos Real.sin Real.arctan x y
        along_size across_size inv).length = x.length ∧
      ∀ i, i < x.length →
        (get_segment_polygons Real.cos Real.sin Real.arctan x y
            along_size across_size inv).getD i []
          = (footprint (x.getD i 0) (y.getD i 0)
              (Real.cos ((flight_angles Real.arctan x y).getD i 0))
              (Real.sin ((flight_angles Real.arctan x y).getD i 0))
              along_size across_size).map inv := by
  constructor
  · rw [get_segment_polygons, List.length_zipWith, List.length_zip,
      flight_angles_length, hlen]
    simp
  · intro i hi
    have hgd : ∀ (z : List ℝ) (j : ℕ), j < z.length → z[j]? = some (z.getD j 0) := by
      intro z j hj
      rw [List.getD_eq_getElem?_getD, List.getElem?_eq_getElem hj]
      rfl
    have hxz : (x.zip y)[i]? = some (x.getD i 0, y.getD i 0) := by
      rw [List.zip_eq_zipWith, List.getElem?_zipWith, hgd x i hi,
        hgd y i (by omega)]
    have hax : (flight_angles Real.arctan x y)[i]? =
        some ((flight_angles Real.arctan x y).getD i 0) := by
      refine hgd _ i ?_
      rw [flight_angles_length, hlen]
      omega
    rw [get_segment_polygons, List.getD_eq_getElem?_getD, List.getElem?_zipWith,
      hxz, hax]
    rfl

/-- Witness for C9 at x = [0, 1], y = [2, 3], sizes 100 and 13, identity
reprojection. -/
theorem get_segment_polygons_order_witness :
    ([2, 3] : List ℝ).length = ([0, 1] : List ℝ).length ∧
      ((get_segment_polygons Real.cos Real.sin Real.arctan [0, 1] [2, 3]
          100 13 id).length = ([0, 1] : List ℝ).length ∧
        ∀ i, i < ([0, 1] : List ℝ).length →
          (get_segment_polygons Real.cos Real.sin Real.arctan [0, 1] [2, 3]
              100 13 id).getD i []
            = (footprint (([0, 1] : List ℝ).getD i 0) (([2, 3] : List ℝ).getD i 0)
                (Real.cos ((flight_angles Real.arctan [0, 1] [2, 3]).getD i 0))
                (Real.sin ((flight_angles Real.arctan [0, 1] [2, 3]).getD i 0))
                100 13).map id) :=
  ⟨rfl, get_segment_polygons_order [0, 1] [2, 3] 100 13 id rfl⟩

/-- C5 counterexample: neither a single-sample input nor an all-coincident
multi-sample input makes the synthesizer fail. No DegenerateTrackError
exists anywhere in the code, and on both inputs get_segment_polygons still
returns one polygon per input sample (the 0/0 heading quotient flows into
the output instead of raising). -/
theorem degenerate_track_no_failure :
    (get_segment_polygons Real.cos Real.sin Real.arctan [0] [0] 100 13 id).length = 1 ∧
      (get_segment_polygons Real.cos Real.sin Real.arctan [5, 5, 5] [7, 7, 7]
        100 13 id).length = 3 := by
  refine ⟨?_, ?_⟩ <;>
    simp [get_segment_polygons, List.length_zipWith, List.length_zip,
      flight_angles_length]

/-- C5 (amended): on a single-sample input and on any all-coincident
multi-sample input the synthesizer does not fail fast: it returns a full
output of exactly one polygon per input sample, the heading being the
undefined quotient 0/0 rather than a raised DegenerateTrackError. -/
theorem degenerate_track_full_output (n : ℕ) (hn : 1 ≤ n)
    (x0 y0 along_size across_size : ℝ) (inv : ℝ × ℝ → ℝ × ℝ) :
    (get_segment_polygons Real.cos Real.sin Real.arctan
        (List.replicate n x0) (List.replicate n y0)
        along_size across_size inv).length = n := by
  rw [get_segment_polygons, List.length_zipWith, List.length_zip,
    flight_angles_length]
  simp

/-- Witness for the amended C5 at the single-sample input n = 1. -/
theorem degenerate_track_full_output_witness :
    1 ≤ 1 ∧
      (get_segment_polygons Real.cos Real.sin Real.arctan
          (List.replicate 1 (0 : ℝ)) (List.replicate 1 (0 : ℝ)) 100 13 id).length = 1 :=
  ⟨by decide, degenerate_track_full_output 1 (by decide) 0 0 100 13 id⟩

/-- C10: get_segment_polygons always builds the EPSG code as
32600 + zone (the northern-hemisphere UTM variant), never 32700 + zone,
even when every sample latitude is in the southern hemisphere. -/
theorem epsg_always_northern (lats lons : List ℚ) (hsouth : ∀ l ∈ lats, l < 0) :
    epsg_code lats lons = 32600 + latlon_to_mode_utm_zone_number lats lons ∧
      epsg_code lats lons ≠ 32700 + latlon_to_mode_utm_zone_number lats lons := by
  refine ⟨rfl, ?_⟩
  rw [epsg_code]
  omega

/-- Witness for C10 at an all-southern track: latitudes [-10, -20],
longitudes [100, 100]. -/
theorem epsg_always_northern_witness :
    (∀ l ∈ ([-10, -20] : List ℚ), l < 0) ∧
      (epsg_code [-10, -20] [100, 100] =
          32600 + latlon_to_mode_utm_zone_number [-10, -20] [100, 100] ∧
        epsg_code [-10, -20] [100, 100] ≠
          32700 + latlon_to_mode_utm_zone_number [-10, -20] [100, 100]) :=
  ⟨by decide, epsg_always_northern [-10, -20] [100, 100] (by decide)⟩

end PySL4Land
